import Mathlib

/-!
Verification development for the Text2PDF Telegram bot (`src/main.py`).

The Python code is shallowly embedded over `List Char` (a Python `str` is a
sequence of Unicode code points).  Pure helpers of class `CompletePDFBot`
(`clean_text`, `split_into_paragraphs`, `create_html_document`,
`create_document`) become Lean functions; the async handler
`handle_text_message` becomes a function from the inbound text (plus an
explicit fault environment standing for the external awaited calls that may
raise) to the list of performed side effects together with an optional
uncaught exception.  `unicodedata.normalize("NFC", ...)` is an external
library routine and is kept as an explicit function parameter `nfc`.
-/

namespace Text2PDF

/-- The set of characters Python's `str.split()` / `str.strip()` treat as
whitespace (CPython's Unicode whitespace set). -/
def pySpaceChars : List Char :=
  ['\t', '\n', '\x0b', '\x0c', '\r', '\x1c', '\x1d', '\x1e', '\x1f', ' ',
   '\u0085', ' ', ' ', ' ', ' ', ' ', ' ',
   ' ', ' ', ' ', ' ', ' ', ' ', ' ',
   ' ', ' ', ' ', ' ', '　']

/-- Python whitespace test (`str.isspace` on a single character). -/
def pyIsSpace (c : Char) : Bool := pySpaceChars.contains c

/-- Python `str.strip()`: drop leading and trailing whitespace. -/
def pyStrip (l : List Char) : List Char :=
  ((l.dropWhile pyIsSpace).reverse.dropWhile pyIsSpace).reverse

/-- The "problematic Unicode characters" removed by `clean_text`
(`src/main.py` lines 90-97): ZWSP, ZWNJ, ZWJ, BOM, LRE, PDF. -/
def problematicChars : List Char :=
  ['​', '‌', '‍', '﻿', '‪', '‬']

/-- The removal loop of `clean_text` (lines 99-101): for each problematic
character, `cleaned = cleaned.replace(old, '')`; replacing a single character
by the empty string removes every occurrence of it. -/
def removeProblematic (l : List Char) : List Char :=
  problematicChars.foldl (fun acc pc => acc.filter (fun c => c != pc)) l

/-- Python `str.split()` with no separator: split on runs of whitespace,
producing no empty words.  `acc` holds the current word, reversed. -/
def pyWordsAux : List Char → List Char → List (List Char)
  | [], acc => if acc.isEmpty then [] else [acc.reverse]
  | c :: cs, acc =>
    if pyIsSpace c then
      if acc.isEmpty then pyWordsAux cs [] else acc.reverse :: pyWordsAux cs []
    else pyWordsAux cs (c :: acc)

/-- Python `text.split()`. -/
def pySplitWs (l : List Char) : List (List Char) := pyWordsAux l []

/-- Python `' '.join(words)`. -/
def joinWords : List (List Char) → List Char
  | [] => []
  | [w] => w
  | w :: ws => w ++ ' ' :: joinWords ws

/-- The whitespace-normalisation step of `clean_text` (line 104):
`cleaned = ' '.join(cleaned.split())`. -/
def collapseWs (l : List Char) : List Char := joinWords (pySplitWs l)

/-- `CompletePDFBot.clean_text` (lines 87-113): remove the problematic
characters, collapse whitespace runs to single spaces, then apply
`unicodedata.normalize('NFC', ...)` (the external parameter `nfc`). -/
def cleanText (nfc : List Char → List Char) (text : List Char) : List Char :=
  nfc (collapseWs (removeProblematic text))

/-- The `'\n\n' in text` test of `split_into_paragraphs` (line 118). -/
def hasDoubleNewline : List Char → Bool
  | '\n' :: '\n' :: _ => true
  | _ :: rest => hasDoubleNewline rest
  | [] => false

/-- Python `text.split('\n\n')`: split at non-overlapping occurrences of the
two-character separator, scanning left to right, keeping empty pieces.
`acc` holds the current piece, reversed. -/
def splitNlNlAux : List Char → List Char → List (List Char)
  | '\n' :: '\n' :: rest, acc => acc.reverse :: splitNlNlAux rest []
  | c :: rest, acc => splitNlNlAux rest (c :: acc)
  | [], acc => [acc.reverse]

/-- Python `text.split('\n\n')`. -/
def splitNlNl (l : List Char) : List (List Char) := splitNlNlAux l []

/-- Python `text.split('\n')`. -/
def splitNlAux : List Char → List Char → List (List Char)
  | '\n' :: rest, acc => acc.reverse :: splitNlAux rest []
  | c :: rest, acc => splitNlAux rest (c :: acc)
  | [], acc => [acc.reverse]

/-- Python `text.split('\n')`. -/
def splitNl (l : List Char) : List (List Char) := splitNlAux l []

/-- `CompletePDFBot.split_into_paragraphs` (lines 115-131): split on double
newlines when present, otherwise on single newlines; clean each piece and
keep those that are non-empty with trimmed length above 2; if nothing
survives, fall back to the cleaned whole text. -/
def splitIntoParagraphs (nfc : List Char → List Char) (text : List Char) :
    List (List Char) :=
  let paragraphs := if hasDoubleNewline text then splitNlNl text else splitNl text
  let cleanParagraphs :=
    (paragraphs.map (cleanText nfc)).filter
      (fun p => !p.isEmpty && decide (2 < (pyStrip p).length))
  if cleanParagraphs.isEmpty then [cleanText nfc text] else cleanParagraphs

/-- Python `'\n'.join(pieces)`. -/
def joinWithNl : List (List Char) → List Char
  | [] => []
  | [p] => p
  | p :: ps => p ++ '\n' :: joinWithNl ps

/-- The paragraph-to-HTML loop of `create_html_document` (lines 238-244):
wrap each paragraph with a non-blank strip in a
`<p class="content-paragraph">` element and join the elements by newline.
The paragraph text is interpolated verbatim (no escaping). -/
def contentHtml (nfc : List Char → List Char) (text : List Char) : List Char :=
  joinWithNl (((splitIntoParagraphs nfc text).filter
      (fun para => !(pyStrip para).isEmpty)).map
    (fun para => "<p class=\"content-paragraph\">".data ++ para ++ "</p>".data))

/-- `CompletePDFBot.__init__`: `self.font_size = 19`. -/
def fontSize : Nat := 19

/-- `CompletePDFBot.__init__`: `self.header_font_size = 16`. -/
def headerFontSize : Nat := 16

/-- `CompletePDFBot.__init__`: `self.footer_font_size = 10`. -/
def footerFontSize : Nat := 10

/-- `create_html_document` template, up to the first `{self.font_size}`. -/
def htmlSeg1 : String :=
"<!DOCTYPE html>
<html lang=\"km\">
<head>
    <meta charset=\"UTF-8\">
    <meta name=\"viewport\" content=\"width=device-width, initial-scale=1.0\">
    <title>TEXT 2PDF BY TENG SAMBATH</title>
    <link rel=\"preconnect\" href=\"https://fonts.googleapis.com\">
    <link rel=\"preconnect\" href=\"https://fonts.gstatic.com\" crossorigin>
    <link href=\"https://fonts.googleapis.com/css2?family=Battambang:wght@400;700&family=Noto+Sans+Khmer:wght@400;700&display=swap\" rel=\"stylesheet\">
    
    <style>
        @media print \x7b
            @page \x7b
                size: A4;
                margin: 2cm;
            \x7d
            body \x7b
                font-size: "

/-- Template between the first `{self.font_size}` and the second. -/
def htmlSeg2 : String :=
"px !important;
                line-height: 1.8 !important;
            \x7d
        \x7d
        
        body \x7b
            font-family: \x27Battambang\x27, \x27Noto Sans Khmer\x27, Arial, sans-serif;
            font-size: "

/-- Template between `{self.font_size}` and `{self.header_font_size}`. -/
def htmlSeg3 : String :=
"px;
            line-height: 1.8;
            margin: 0;
            padding: 40px;
            max-width: 800px;
            margin: 0 auto;
            color: #333;
        \x7d
        
        .header \x7b
            font-family: \x27Helvetica\x27, Arial, sans-serif;
            font-weight: bold;
            font-size: "

/-- Template between `{self.header_font_size}` and `{self.footer_font_size}`. -/
def htmlSeg4 : String :=
"px;
            text-align: center;
            margin-bottom: 30px;
            padding-bottom: 15px;
            border-bottom: 2px solid #000;
        \x7d
        
        .content \x7b
            margin: 30px 0;
        \x7d
        
        .content-paragraph \x7b
            margin-bottom: 15px;
            text-align: left;
            text-indent: 30px;
            line-height: 1.8;
        \x7d
        
        .content-paragraph:first-child \x7b
            text-indent: 0;
        \x7d
        
        .footer \x7b
            margin-top: 50px;
            padding-top: 15px;
            border-top: 1px solid #ccc;
            font-size: "

/-- Template between `{self.footer_font_size}` and `{content_html}`. -/
def htmlSeg5 : String :=
"px;
            color: #666;
            text-align: left;
        \x7d
        
        .print-instructions \x7b
            background: #f0f8ff;
            border: 1px solid #0066cc;
            padding: 15px;
            margin: 20px 0;
            border-radius: 5px;
            font-size: 14px;
        \x7d
        
        .print-button \x7b
            background: #0066cc;
            color: white;
            padding: 10px 20px;
            border: none;
            border-radius: 5px;
            cursor: pointer;
            font-size: 14px;
            margin: 10px 0;
        \x7d
        
        @media print \x7b
            .print-instructions, .print-button \x7b
                display: none !important;
            \x7d
        \x7d
    </style>
</head>
<body>
    <div class=\"print-instructions\">
        <strong>🖨️ របៀបបម្លែងទៅជា PDF:</strong><br>
        1. ចុចប៊ូតុង \"Print to PDF\" ខាងក្រោម<br>
        2. ឬចុច Ctrl+P (Windows) / Cmd+P (Mac)<br>
        3. ជ្រើសរើស \"Save as PDF\" ឬ \"Microsoft Print to PDF\"<br>
        4. ចុច Save<br><br>
        <button class=\"print-button\" onclick=\"window.print()\">🖨️ Print to PDF</button>
    </div>
    
    <div class=\"header\">TEXT 2PDF BY : TENG SAMBATH</div>
    
    <div class=\"content\">
        "

/-- Template between `{content_html}` and `{current_date}`. -/
def htmlSeg6 : String :=
"
    </div>
    
    <div class=\"footer\">
        Generated: "

/-- Template after `{current_date}`. -/
def htmlSeg7 : String :=
" | ទំព័រ 1 | Created by TENG SAMBATH
    </div>
    
    <script>
        // Optional: Auto-prompt for printing
        function autoPrint() \x7b
            if (confirm(\x27ចង់ print ជា PDF ឥឡូវនេះទេ?\x27)) \x7b
                window.print();
            \x7d
        \x7d
        
        // Show print dialog after 2 seconds
        setTimeout(autoPrint, 2000);
    </script>
</body>
</html>"

/-- `CompletePDFBot.create_html_document` (lines 231-377): interpolate the
font sizes, the formatted paragraphs and the current date into the HTML
template.  The returned string is the document buffer's content (the Python
code UTF-8-encodes it into a `BytesIO`). -/
def createHtmlDocument (nfc : List Char → List Char) (currentDate : String)
    (text : List Char) : String :=
  htmlSeg1 ++ toString fontSize ++ htmlSeg2 ++ toString fontSize ++ htmlSeg3 ++
    toString headerFontSize ++ htmlSeg4 ++ toString footerFontSize ++ htmlSeg5 ++
    String.mk (contentHtml nfc text) ++ htmlSeg6 ++ currentDate ++ htmlSeg7

/-- `CompletePDFBot.create_document` (lines 379-396).  The text must be
non-empty with trimmed length at least 3, otherwise `ValueError("Text too
short")` is raised.  `create_pdf_document` is a call into ReportLab (an
external renderer); its outcome is the explicit parameter `pdfRes`, with
`Except.error e` standing for a raised exception with message `e`.  A PDF
failure is caught and falls back to the HTML document.  The result triple is
`(buffer content, file extension, creation mode)`. -/
def createDocument (rl : Bool) (pdfRes : Except String String)
    (nfc : List Char → List Char) (currentDate : String) (text : List Char) :
    Except String (String × String × String) :=
  if text.isEmpty || decide ((pyStrip text).length < 3) then
    Except.error "Text too short"
  else if rl then
    match pdfRes with
    | Except.ok buf => Except.ok (buf, "pdf", "PDF")
    | Except.error _ =>
      Except.ok (createHtmlDocument nfc currentDate text, "html", "HTML (Fallback)")
  else
    Except.ok (createHtmlDocument nfc currentDate text, "html", "HTML")

/-- `user_text.startswith('/')` (line 463). -/
def startsWithSlash : List Char → Bool
  | '/' :: _ => true
  | _ => false

/-- Warning sent for input with trimmed length below 3 (line 468). -/
def tooShortMsg : String := "⚠️ សូមផ្ញើអត្ថបទយ៉ាងហោចណាស់ 3 តួអក្សរ"

/-- Warning sent for input longer than 5000 characters (line 472). -/
def tooLongMsg : String := "⚠️ អត្ថបទវែងពេក! សូមផ្ញើក្រោម 5000 តួអក្សរ"

/-- The processing status message (lines 478-484). -/
def processingMsg (rl : Bool) (n : Nat) : String :=
  "⏳ **កំពុងបង្កើត " ++ (if rl then "PDF" else "HTML") ++
  " document...**\n📝 ចំនួនតួអក្សរ: " ++ toString n ++
  "\n🔤 Font: " ++ toString fontSize ++ "px\n⚙️ Engine: " ++
  (if rl then "ReportLab PDF" else "HTML + Print") ++ "\n✨ រៀបចំ layout..."

/-- The caption attached to the sent document (lines 498-515). -/
def captionMsg (creationMode fileExt : String) (n : Nat) (currentDate : String) :
    String :=
  "✅ **បង្កើត " ++ creationMode ++ " ជោគជ័យ!** 🇰🇭\n\n🎯 **លក្ខណៈពិសេស:**\n• File Type: " ++
  creationMode ++ "\n• Font Size: " ++ toString fontSize ++
  "px (ធំ និង ច្បាស់)\n• Layout: Professional ជាមួយ margins\n• Header: TEXT 2PDF BY : TENG SAMBATH\n• Paragraph: Left aligned ស្អាត\n\n📊 **ព័ត៌មានឯកសារ:**\n• ចំនួនតួអក្សរ: " ++
  toString n ++ "\n• បង្កើតនៅ: " ++ currentDate ++ "\n• Engine: " ++ creationMode ++
  "\n\n" ++
  (if fileExt == "pdf" then "📄 **ការប្រើប្រាស់:** ទាញយក PDF ផ្ទាល់!"
   else "🖨️ **ការប្រើប្រាស់:** បើក HTML → ចុច Print → Save as PDF!") ++
  "\n\n👨‍💻 **Complete Solution by: TENG SAMBATH**\n🌟 **Status: PRODUCTION READY!**"

/-- The error reply of the handler's `except` block (lines 526-531): note that
it interpolates `str(e)`, the raised exception's own message. -/
def errorReply (e : String) : String :=
  "❌ **មានបញ្ហាកើតឡើង:** " ++ e ++
  "\n\n🔄 សូមព្យាយាមម្ដងទៀត\n💡 ឬផ្ញើអត្ថបទខ្លីជាមុន\n👨‍💻 Support: TENG SAMBATH"

/-- The success log line (line 522). -/
def successLog (creationMode : String) (uid : Nat) : String :=
  "Successfully created " ++ creationMode ++ " for user " ++ toString uid

/-- The handler's error log line (line 525). -/
def handlerErrorLog (e : String) : String :=
  "Error processing text message: " ++ e

/-- Observable side effects performed by `handle_text_message`: replies,
document delivery, deletion of the processing message, and log lines. -/
inductive Eff where
  | replyText (msg : String)
  | sendDocument (filename : String) (content : String) (caption : String)
  | deleteProcessingMsg
  | logInfo (msg : String)
  | logError (msg : String)
deriving DecidableEq

/-- Fault environment for the handler's external awaited calls: each `some e`
means that call raises an exception whose `str` is `e`; `pdfRes` is the
outcome of the ReportLab rendering inside `create_document`. -/
structure Faults where
  replyShort : Option String
  replyLong : Option String
  replyProcessing : Option String
  pdfRes : Except String String
  sendDoc : Option String
  deleteMsg : Option String
  replyError : Option String

/-- The environment in which no external call fails and ReportLab returns a
PDF buffer. -/
def noFaults : Faults := ⟨none, none, none, Except.ok "%PDF-1.4", none, none, none⟩

/-- `handle_text_message` (lines 460-531).  The result is the list of side
effects actually performed, paired with `some e` when an exception escaped
the handler (the validation replies at lines 468 and 472 and the error reply
at line 526 are awaited outside any enclosing `try`, so their exceptions
propagate) and `none` when the handler returned normally. -/
def handleTextMessage (rl : Bool) (f : Faults) (nfc : List Char → List Char)
    (currentDate ts : String) (uid : Nat) (text : List Char) :
    List Eff × Option String :=
  if startsWithSlash text then ([], none)
  else if (pyStrip text).length < 3 then
    match f.replyShort with
    | some e => ([], some e)
    | none => ([Eff.replyText tooShortMsg], none)
  else if 5000 < text.length then
    match f.replyLong with
    | some e => ([], some e)
    | none => ([Eff.replyText tooLongMsg], none)
  else
    let tryRes : List Eff × Option String :=
      match f.replyProcessing with
      | some e => ([], some e)
      | none =>
        let effs0 := [Eff.replyText (processingMsg rl text.length)]
        match createDocument rl f.pdfRes nfc currentDate text with
        | Except.error e => (effs0, some e)
        | Except.ok (buf, ext, mode) =>
          match f.sendDoc with
          | some e => (effs0, some e)
          | none =>
            let effs1 := effs0 ++
              [Eff.sendDocument ("SAMBATH_COMPLETE_" ++ ts ++ "." ++ ext) buf
                (captionMsg mode ext text.length currentDate)]
            match f.deleteMsg with
            | some e => (effs1, some e)
            | none => (effs1 ++ [Eff.deleteProcessingMsg, Eff.logInfo (successLog mode uid)], none)
    match tryRes with
    | (effs, none) => (effs, none)
    | (effs, some e) =>
      let effs2 := effs ++ [Eff.logError (handlerErrorLog e)]
      match f.replyError with
      | some e2 => (effs2, some e2)
      | none => (effs2 ++ [Eff.replyText (errorReply e)], none)

/-- The `/webhook` endpoint `process_update` (lines 572-581): `parsed` is the
outcome of reading and decoding the request body; any exception is caught,
logged, and answered with HTTP 500, otherwise the update is enqueued and
HTTP 200 is returned.  No reply is ever sent to the chat user from here. -/
def processUpdate (parsed : Except String Unit) : List Eff × Nat :=
  match parsed with
  | Except.ok _ => ([], 200)
  | Except.error e => ([Eff.logError ("Webhook error: " ++ e)], 500)

/-- A document delivery occurs among the handler's performed effects. -/
def sentDoc (r : List Eff × Option String) : Prop :=
  ∃ fn c cap, Eff.sendDocument fn c cap ∈ r.fst

/-- Modelled from the spec: input normalisation of the Session Buffer
(spec section 4.1) — "convert all line-ending variants to a single newline
form before storing; do not trim interior whitespace".  `src/main.py` holds
only the one-shot variant of the bot; the Session Buffer lives in the
repository's other script variants, so it is modelled from the spec here. -/
def normalizeNewlines : List Char → List Char
  | '\r' :: '\n' :: rest => '\n' :: normalizeNewlines rest
  | '\r' :: rest => '\n' :: normalizeNewlines rest
  | c :: rest => c :: normalizeNewlines rest
  | [] => []

/-- Modelled from the spec: ASCII case folding used to recognise the end
synonyms of spec section 4.1. -/
def asciiLower (c : Char) : Char :=
  if 'A' ≤ c && c ≤ 'Z' then Char.ofNat (c.toNat + 32) else c

/-- Modelled from the spec: the "fixed set of end synonyms (e.g. done,
finish, end)" of spec section 4.1. -/
def endKeywords : List (List Char) :=
  ["done".data, "finish".data, "end".data]

/-- Modelled from the spec: a plain-text message finalises the session when
its trimmed, case-folded value matches one of the end synonyms. -/
def isEndKeyword (s : List Char) : Bool :=
  endKeywords.contains ((pyStrip s).map asciiLower)

/-- Modelled from the spec: the Conversation Session entity of spec
section 3 — collection flag, immutable title, chunks in arrival order with
monotonically increasing sequence numbers, and the next sequence number
(numbering restarts at 1 after a clear). -/
structure Session where
  active : Bool
  title : Option (List Char)
  chunks : List (Nat × List Char)
  nextSeq : Nat
deriving DecidableEq

/-- Modelled from the spec: a never-started (or freshly cleared) session. -/
def emptySession : Session := ⟨false, none, [], 1⟩

/-- Modelled from the spec: inbound events of the Session Buffer — the start
command with optional title argument, ordinary text, and the end command. -/
inductive SEvent where
  | startCmd (title : Option (List Char))
  | plainText (s : List Char)
  | endCmd
deriving DecidableEq

/-- Modelled from the spec: the Merged Document of spec section 3, "derived,
not stored": the session title (if any) and the chunks joined by newline in
sequence order. -/
structure Merged where
  title : Option (List Char)
  body : List Char
deriving DecidableEq

/-- Modelled from the spec: outputs of one Session Buffer transition — no
visible output, an accumulation acknowledgment with the chunk count, an
emitted merged document, or the "nothing to convert" report. -/
inductive SOut where
  | silent
  | ack (count : Nat)
  | doc (m : Merged)
  | oneShot (body : List Char)
  | nothingToConvert
deriving DecidableEq

/-- Modelled from the spec: merging a session at "end" time. -/
def mergeSession (sess : Session) : Merged :=
  ⟨sess.title, joinWithNl (sess.chunks.map Prod.snd)⟩

/-- Modelled from the spec: finalisation — an empty session (no chunks and
no title) reports "nothing to convert"; otherwise the merged document is
emitted; in both cases the session state is cleared unconditionally. -/
def finalizeSession (sess : Session) : Session × SOut :=
  if sess.chunks.isEmpty && sess.title.isNone then
    (emptySession, SOut.nothingToConvert)
  else
    (emptySession, SOut.doc (mergeSession sess))

/-- Modelled from the spec: the Session Buffer state machine of spec
section 4.1.  "start" clears any stale state and begins collecting with the
given title; while collecting, ordinary text is appended as
`(next_sequence_number, normalized_text)` and acknowledged with the chunk
count, and an end command or end keyword finalises; with no active session,
ordinary text is a complete one-shot document. -/
def step (sess : Session) (ev : SEvent) : Session × SOut :=
  match ev with
  | SEvent.startCmd t => (⟨true, t, [], 1⟩, SOut.silent)
  | SEvent.endCmd =>
    if sess.active then finalizeSession sess
    else (sess, SOut.nothingToConvert)
  | SEvent.plainText s =>
    if sess.active then
      if isEndKeyword s then finalizeSession sess
      else
        (⟨true, sess.title, sess.chunks ++ [(sess.nextSeq, normalizeNewlines s)],
          sess.nextSeq + 1⟩, SOut.ack (sess.chunks.length + 1))
    else (sess, SOut.oneShot (normalizeNewlines s))

/-- Modelled from the spec: run the buffer over a list of events. -/
def runEvents (sess : Session) (evs : List SEvent) : Session :=
  evs.foldl (fun st ev => (step st ev).fst) sess

/-- The chunk list produced by appending the given messages starting at the
given sequence number: each message is stored normalised, numbered
consecutively. -/
def numberFrom : Nat → List (List Char) → List (Nat × List Char)
  | _, [] => []
  | n, m :: ms => (n, normalizeNewlines m) :: numberFrom (n + 1) ms

/-! ### Lemmas about the whitespace-collapsing machinery of `clean_text` -/

lemma wordsAux_good :
    ∀ (l acc : List Char), (∀ c ∈ acc, pyIsSpace c = false) →
      ∀ w ∈ pyWordsAux l acc, w ≠ [] ∧ ∀ c ∈ w, pyIsSpace c = false := by
  intro l
  induction l with
  | nil =>
    intro acc hacc w hw
    cases acc with
    | nil => simp [pyWordsAux] at hw
    | cons a as =>
      simp [pyWordsAux] at hw
      subst hw
      refine ⟨by simp, ?_⟩
      intro c hc
      exact hacc c (by simp at hc ⊢; tauto)
  | cons x xs ih =>
    intro acc hacc w hw
    simp only [pyWordsAux] at hw
    by_cases hx : pyIsSpace x
    · rw [if_pos hx] at hw
      cases acc with
      | nil =>
        simp at hw
        exact ih [] (by simp) w hw
      | cons a as =>
        simp at hw
        rcases hw with hw | hw
        · subst hw
          refine ⟨by simp, ?_⟩
          intro c hc
          exact hacc c (by simp at hc ⊢; tauto)
        · exact ih [] (by simp) w hw
    · rw [if_neg hx] at hw
      refine ih (x :: acc) ?_ w hw
      intro c hc
      rcases List.mem_cons.mp hc with h | h
      · subst h
        simpa using hx
      · exact hacc c h

lemma pySplitWs_good (l : List Char) :
    ∀ w ∈ pySplitWs l, w ≠ [] ∧ ∀ c ∈ w, pyIsSpace c = false :=
  wordsAux_good l [] (by simp)

lemma wordsAux_word_append :
    ∀ (w l acc : List Char), (∀ c ∈ w, pyIsSpace c = false) →
      pyWordsAux (w ++ l) acc = pyWordsAux l (w.reverse ++ acc) := by
  intro w
  induction w with
  | nil => intro l acc _; simp
  | cons x xs ih =>
    intro l acc hw
    have hx : pyIsSpace x = false := hw x (by simp)
    have hstep : pyWordsAux ((x :: xs) ++ l) acc = pyWordsAux (xs ++ l) (x :: acc) := by
      simp [pyWordsAux, hx]
    rw [hstep, ih l (x :: acc) (fun c hc => hw c (by simp [hc]))]
    simp

lemma wordsAux_mem_subset :
    ∀ (l acc w : List Char), w ∈ pyWordsAux l acc →
      ∀ c ∈ w, c ∈ l ∨ c ∈ acc := by
  intro l
  induction l with
  | nil =>
    intro acc w hw c hc
    cases acc with
    | nil => simp [pyWordsAux] at hw
    | cons a as =>
      simp [pyWordsAux] at hw
      subst hw
      exact Or.inr (by simp at hc ⊢; tauto)
  | cons x xs ih =>
    intro acc w hw c hc
    simp only [pyWordsAux] at hw
    by_cases hx : pyIsSpace x
    · rw [if_pos hx] at hw
      cases acc with
      | nil =>
        simp at hw
        rcases ih [] w hw c hc with h | h
        · exact Or.inl (by simp [h])
        · simp at h
      | cons a as =>
        simp at hw
        rcases hw with hw | hw
        · subst hw
          exact Or.inr (by simp at hc ⊢; tauto)
        · rcases ih [] w hw c hc with h | h
          · exact Or.inl (by simp [h])
          · simp at h
    · rw [if_neg hx] at hw
      rcases ih (x :: acc) w hw c hc with h | h
      · exact Or.inl (by simp [h])
      · rcases List.mem_cons.mp h with h | h
        · exact Or.inl (by simp [h])
        · exact Or.inr h

lemma joinWords_mem :
    ∀ (ws : List (List Char)) (c : Char), c ∈ joinWords ws →
      c = ' ' ∨ ∃ w ∈ ws, c ∈ w := by
  intro ws
  induction ws with
  | nil => intro c hc; simp [joinWords] at hc
  | cons w ws ih =>
    intro c hc
    cases ws with
    | nil =>
      simp only [joinWords] at hc
      exact Or.inr ⟨w, by simp, hc⟩
    | cons w2 ws2 =>
      simp only [joinWords] at hc
      rcases List.mem_append.mp hc with h | h
      · exact Or.inr ⟨w, by simp, h⟩
      · rcases List.mem_cons.mp h with h | h
        · exact Or.inl h
        · rcases ih c h with h | ⟨w3, hw3, hc3⟩
          · exact Or.inl h
          · exact Or.inr ⟨w3, by simp [hw3], hc3⟩

lemma splitWs_joinWords :
    ∀ ws : List (List Char),
      (∀ w ∈ ws, w ≠ [] ∧ ∀ c ∈ w, pyIsSpace c = false) →
      pySplitWs (joinWords ws) = ws := by
  intro ws
  induction ws with
  | nil => intro _; rfl
  | cons w ws ih =>
    intro h
    obtain ⟨hne, hnosp⟩ := h w (by simp)
    obtain ⟨x, xs, rfl⟩ := List.exists_cons_of_ne_nil hne
    have hsp : pyIsSpace ' ' = true := by decide
    cases ws with
    | nil =>
      have h1 := wordsAux_word_append (x :: xs) [] [] hnosp
      rw [List.append_nil] at h1
      show pyWordsAux (x :: xs) [] = [x :: xs]
      rw [h1]
      simp [pyWordsAux, List.isEmpty_iff]
    | cons w2 ws2 =>
      show pyWordsAux ((x :: xs) ++ ' ' :: joinWords (w2 :: ws2)) [] = (x :: xs) :: w2 :: ws2
      rw [wordsAux_word_append (x :: xs) _ [] hnosp, List.append_nil]
      have hstep : pyWordsAux (' ' :: joinWords (w2 :: ws2)) ((x :: xs).reverse) =
          ((x :: xs).reverse).reverse :: pyWordsAux (joinWords (w2 :: ws2)) [] := by
        simp [pyWordsAux, hsp, List.isEmpty_iff]
      rw [hstep, List.reverse_reverse]
      rw [show pyWordsAux (joinWords (w2 :: ws2)) [] = pySplitWs (joinWords (w2 :: ws2)) from rfl]
      rw [ih (fun v hv => h v (by simp [hv]))]

lemma collapseWs_idem (l : List Char) : collapseWs (collapseWs l) = collapseWs l := by
  unfold collapseWs
  rw [show pySplitWs (joinWords (pySplitWs l)) = pySplitWs l from
    splitWs_joinWords _ (pySplitWs_good l)]

lemma collapseWs_mem {l : List Char} {c : Char} (hc : c ∈ collapseWs l) :
    c = ' ' ∨ c ∈ l := by
  unfold collapseWs at hc
  rcases joinWords_mem _ c hc with h | ⟨w, hw, hcw⟩
  · exact Or.inl h
  · rcases wordsAux_mem_subset l [] w hw c hcw with h | h
    · exact Or.inr h
    · simp at h

lemma collapseWs_mem_space {l : List Char} {c : Char} (hc : c ∈ collapseWs l) :
    c = ' ' ∨ pyIsSpace c = false := by
  unfold collapseWs at hc
  rcases joinWords_mem _ c hc with h | ⟨w, hw, hcw⟩
  · exact Or.inl h
  · exact Or.inr ((pySplitWs_good l w hw).2 c hcw)

lemma foldl_filter_mem :
    ∀ (ps l : List Char) (c : Char),
      c ∈ ps.foldl (fun acc pc => acc.filter (fun x => x != pc)) l →
      c ∈ l ∧ c ∉ ps := by
  intro ps
  induction ps with
  | nil => intro l c hc; exact ⟨hc, by simp⟩
  | cons p ps ih =>
    intro l c hc
    simp only [List.foldl] at hc
    obtain ⟨h1, h2⟩ := ih _ c hc
    rw [List.mem_filter] at h1
    obtain ⟨hl, hne⟩ := h1
    simp only [bne_iff_ne, ne_eq] at hne
    refine ⟨hl, ?_⟩
    intro hmem
    rcases List.mem_cons.mp hmem with h | h
    · exact hne h
    · exact h2 h

lemma foldl_filter_eq_self :
    ∀ (ps l : List Char), (∀ c ∈ l, c ∉ ps) →
      ps.foldl (fun acc pc => acc.filter (fun x => x != pc)) l = l := by
  intro ps
  induction ps with
  | nil => intro l _; rfl
  | cons p ps ih
  =>
    intro l h
    simp only [List.foldl]
    have hfe : l.filter (fun x => x != p) = l := by
      rw [List.filter_eq_self]
      intro c hc
      simp only [bne_iff_ne, ne_eq]
      intro heq
      exact h c hc (by simp [heq])
    rw [hfe]
    exact ih l (fun c hc hmem => h c hc (by simp [hmem]))

lemma removeProblematic_mem {l : List Char} {c : Char}
    (hc : c ∈ removeProblematic l) : c ∈ l ∧ c ∉ problematicChars :=
  foldl_filter_mem problematicChars l c hc

lemma removeProblematic_eq_self {l : List Char}
    (h : ∀ c ∈ l, c ∉ problematicChars) : removeProblematic l = l :=
  foldl_filter_eq_self problematicChars l h

lemma splitIntoParagraphs_mem_clean {nfc : List Char → List Char}
    {text p : List Char} (hp : p ∈ splitIntoParagraphs nfc text) :
    ∃ q, p = cleanText nfc q := by
  simp only [splitIntoParagraphs] at hp
  split at hp <;> split at hp <;>
    first
      | exact ⟨text, by simpa using hp⟩
      | · obtain ⟨q, _, rfl⟩ := List.mem_map.mp (List.mem_filter.mp hp).1
          exact ⟨q, rfl⟩

lemma joinWithNl_surround :
    ∀ (ps : List (List Char)) (p : List Char), p ∈ ps →
      ∃ a b, joinWithNl ps = a ++ p ++ b := by
  intro ps
  induction ps with
  | nil => intro p hp; simp at hp
  | cons q ps ih =>
    intro p hp
    cases ps with
    | nil =>
      simp at hp
      subst hp
      exact ⟨[], [], by simp [joinWithNl]⟩
    | cons q2 ps2 =>
      rcases List.mem_cons.mp hp with h | h
      · subst h
        exact ⟨[], '\n' :: joinWithNl (q2 :: ps2), by simp [joinWithNl]⟩
      · obtain ⟨a, b, hab⟩ := ih p h
        refine ⟨q ++ '\n' :: a, b, ?_⟩
        simp [joinWithNl, hab]

/-! ### Claim theorems -/

/-- C10: `clean_text` is idempotent.  The external NFC normalisation is a
parameter; the hypotheses record the standard properties of Unicode NFC used
here: it is idempotent, it introduces none of the six removed characters,
and it preserves strings whose whitespace is already collapsed. -/
theorem c10_clean_text_idempotent (nfc : List Char → List Char)
    (hIdem : ∀ l, nfc (nfc l) = nfc l)
    (hProb : ∀ l, (∀ c ∈ l, c ∉ problematicChars) →
      ∀ c ∈ nfc l, c ∉ problematicChars)
    (hWs : ∀ l, collapseWs l = l → collapseWs (nfc l) = nfc l)
    (s : List Char) :
    cleanText nfc (cleanText nfc s) = cleanText nfc s := by
  unfold cleanText
  have hnop : ∀ c ∈ collapseWs (removeProblematic s), c ∉ problematicChars := by
    intro c hc
    rcases collapseWs_mem hc with h | h
    · subst h; decide
    · exact (removeProblematic_mem h).2
  have h1 : removeProblematic (nfc (collapseWs (removeProblematic s))) =
      nfc (collapseWs (removeProblematic s)) :=
    removeProblematic_eq_self (hProb _ hnop)
  have h2 : collapseWs (nfc (collapseWs (removeProblematic s))) =
      nfc (collapseWs (removeProblematic s)) :=
    hWs _ (collapseWs_idem _)
  rw [h1, h2, hIdem]

/-- C10 witness: the idempotence theorem applied at a concrete input, with
the NFC parameter instantiated by the identity (NFC is the identity on this
ASCII input). -/
theorem c10_witness :
    cleanText (fun l => l) (cleanText (fun l => l) "  Hello   world ".data) =
      cleanText (fun l => l) "  Hello   world ".data :=
  c10_clean_text_idempotent (fun l => l) (fun _ => rfl) (fun _ h => h)
    (fun _ h => h) "  Hello   world ".data

/-- C4 counterexample: the body does not preserve the submitted text's
whitespace and is re-wrapped into per-paragraph elements.  For `"ab  cd"`
the sole body paragraph is `"ab cd"` (interior run collapsed), and
`"abc\n\ndef"` is split into two paragraphs rather than kept as one block. -/
theorem c4_counterexample :
    splitIntoParagraphs (fun l => l) "ab  cd".data = ["ab cd".data] ∧
    "ab cd".data ≠ "ab  cd".data ∧
    splitIntoParagraphs (fun l => l) "abc\n\ndef".data = ["abc".data, "def".data] ∧
    contentHtml (fun l => l) "abc\n\ndef".data =
      ("<p class=\"content-paragraph\">abc</p>\n" ++
       "<p class=\"content-paragraph\">def</p>").data := by
  refine ⟨by decide, by decide, by decide, by decide⟩

/-- C4 amended: every paragraph emitted by `split_into_paragraphs` is
whitespace-collapsed — it is a fixed point of the collapsing step (single
spaces only, trimmed) and contains no newline — so the body is re-wrapped
into per-paragraph elements instead of preserving whitespace.  The
hypothesis is the NFC property that collapsed whitespace stays collapsed. -/
theorem c4_amended (nfc : List Char → List Char)
    (hWs : ∀ l, collapseWs l = l → collapseWs (nfc l) = nfc l)
    (text p : List Char) (hp : p ∈ splitIntoParagraphs nfc text) :
    collapseWs p = p ∧ '\n' ∉ p := by
  obtain ⟨q, rfl⟩ := splitIntoParagraphs_mem_clean hp
  have hcol : collapseWs (cleanText nfc q) = cleanText nfc q :=
    hWs _ (collapseWs_idem _)
  refine ⟨hcol, ?_⟩
  intro hmem
  rw [← hcol] at hmem
  rcases collapseWs_mem_space hmem with h | h
  · exact absurd h (by decide)
  · exact absurd h (by decide)

/-- C4 amended witness: at the concrete input `"ab  cd"` the sole paragraph
`"ab cd"` is whitespace-collapsed and newline-free. -/
theorem c4_witness :
    collapseWs "ab cd".data = "ab cd".data ∧ '\n' ∉ "ab cd".data :=
  c4_amended (fun l => l) (fun _ h => h) "ab  cd".data "ab cd".data (by decide)

/-- C3 counterexample: the formatter does not escape markup-significant
characters.  For input `"a<b"` the produced markup embeds the raw `<`
verbatim and contains no `&` (so no `&lt;` entity was produced). -/
theorem c3_counterexample :
    contentHtml (fun l => l) "a<b".data =
      "<p class=\"content-paragraph\">a<b</p>".data ∧
    '&' ∉ contentHtml (fun l => l) "a<b".data := by
  refine ⟨by decide, by decide⟩

/-- C3 amended: no escaping is performed — every non-blank paragraph's text
occurs verbatim (markup-significant characters included) as a contiguous
segment of the output markup. -/
theorem c3_amended (nfc : List Char → List Char) (text p : List Char)
    (hp : p ∈ splitIntoParagraphs nfc text)
    (hne : (pyStrip p).isEmpty = false) :
    ∃ a b, contentHtml nfc text = a ++ p ++ b := by
  have hmem : "<p class=\"content-paragraph\">".data ++ p ++ "</p>".data ∈
      ((splitIntoParagraphs nfc text).filter
        (fun para => !(pyStrip para).isEmpty)).map
      (fun para => "<p class=\"content-paragraph\">".data ++ para ++ "</p>".data) :=
    List.mem_map_of_mem _ (List.mem_filter.mpr ⟨hp, by simp [hne]⟩)
  obtain ⟨a, b, hab⟩ := joinWithNl_surround _ _ hmem
  refine ⟨a ++ "<p class=\"content-paragraph\">".data, "</p>".data ++ b, ?_⟩
  unfold contentHtml
  rw [hab]
  simp [List.append_assoc]

/-- C3 amended witness: for input `"a<b"` the paragraph text `"a<b"` occurs
verbatim inside the produced markup. -/
theorem c3_witness :
    ∃ a b, contentHtml (fun l => l) "a<b".data = a ++ "a<b".data ++ b :=
  c3_amended (fun l => l) "a<b".data "a<b".data (by decide) (by decide)

lemma emptyStrip_short : (pyStrip ([] : List Char)).length < 3 := by decide

lemma createDocument_isOk (rl : Bool) (pdfRes : Except String String)
    (nfc : List Char → List Char) (currentDate : String) {text : List Char}
    (h : ¬ (pyStrip text).length < 3) :
    ∃ buf ext mode,
      createDocument rl pdfRes nfc currentDate text = Except.ok (buf, ext, mode) := by
  have hne : text.isEmpty = false := by
    cases text with
    | nil => exact absurd emptyStrip_short h
    | cons a as => rfl
  unfold createDocument
  rw [if_neg (by simp [hne, h])]
  cases rl
  · exact ⟨_, _, _, rfl⟩
  · cases pdfRes
    · exact ⟨_, _, _, rfl⟩
    · exact ⟨_, _, _, rfl⟩

/-- C9: `create_document` raises exactly when the input is empty or its
trimmed length is below 3; for every other input it returns a buffer — the
PDF buffer when ReportLab is available and PDF creation succeeded, the HTML
fallback otherwise — so no rendering exception escapes it. -/
theorem c9_create_document_total (rl : Bool) (pdfRes : Except String String)
    (nfc : List Char → List Char) (currentDate : String) (text : List Char) :
    ((∃ e, createDocument rl pdfRes nfc currentDate text = Except.error e) ↔
      (text = [] ∨ (pyStrip text).length < 3)) ∧
    (¬ (text = [] ∨ (pyStrip text).length < 3) →
      createDocument rl pdfRes nfc currentDate text =
        match rl, pdfRes with
        | true, Except.ok buf => Except.ok (buf, "pdf", "PDF")
        | true, Except.error _ =>
          Except.ok (createHtmlDocument nfc currentDate text, "html", "HTML (Fallback)")
        | false, _ =>
          Except.ok (createHtmlDocument nfc currentDate text, "html", "HTML")) := by
  have hguard : (text.isEmpty || decide ((pyStrip text).length < 3)) = true ↔
      (text = [] ∨ (pyStrip text).length < 3) := by
    simp [List.isEmpty_iff]
  constructor
  · constructor
    · rintro ⟨e, he⟩
      by_cases hg : text = [] ∨ (pyStrip text).length < 3
      · exact hg
      · exfalso
        unfold createDocument at he
        rw [if_neg (fun hb => hg (hguard.mp hb))] at he
        cases rl
        · simp at he
        · cases pdfRes <;> simp at he
    · intro hg
      refine ⟨"Text too short", ?_⟩
      unfold createDocument
      rw [if_pos (hguard.mpr hg)]
  · intro hg
    unfold createDocument
    rw [if_neg (fun hb => hg (hguard.mp hb))]
    cases rl
    · rfl
    · cases pdfRes <;> rfl

/-- C9 witness: concrete valid input with ReportLab available and a
successful PDF render. -/
theorem c9_witness :
    createDocument true (Except.ok "%PDF-1.4") (fun l => l) "" "abc".data =
      Except.ok ("%PDF-1.4", "pdf", "PDF") :=
  (c9_create_document_total true (Except.ok "%PDF-1.4") (fun l => l) ""
    "abc".data).2 (by decide)

/-- C5: a non-command message whose trimmed length is below 3 is answered
immediately with the too-short warning; no document is produced and nothing
else happens (the handler keeps no per-conversation state at all). -/
theorem c5_input_too_short (rl : Bool) (f : Faults) (nfc : List Char → List Char)
    (currentDate ts : String) (uid : Nat) (text : List Char)
    (hcmd : startsWithSlash text = false)
    (hshort : (pyStrip text).length < 3)
    (hok : f.replyShort = none) :
    handleTextMessage rl f nfc currentDate ts uid text =
      ([Eff.replyText tooShortMsg], none) ∧
    ¬ sentDoc (handleTextMessage rl f nfc currentDate ts uid text) := by
  have he : handleTextMessage rl f nfc currentDate ts uid text =
      ([Eff.replyText tooShortMsg], none) := by
    unfold handleTextMessage
    rw [hcmd]
    simp [hshort, hok]
  refine ⟨he, ?_⟩
  rintro ⟨fn, c, cap, hmem⟩
  rw [he] at hmem
  simp at hmem

/-- C5 witness: the two-character message `"ab"` in a fault-free
environment. -/
theorem c5_witness :
    handleTextMessage false noFaults (fun l => l) "" "" 0 "ab".data =
      ([Eff.replyText tooShortMsg], none) ∧
    ¬ sentDoc (handleTextMessage false noFaults (fun l => l) "" "" 0 "ab".data) :=
  c5_input_too_short false noFaults (fun l => l) "" "" 0 "ab".data
    (by decide) (by decide) rfl

/-- C8: a message longer than 5000 characters never leads to a document —
the length check precedes the whole rendering path — and when the message is
a non-command whose trimmed length is at least 3, the handler replies with
exactly the too-long warning and returns. -/
theorem c8_too_long (rl : Bool) (f : Faults) (nfc : List Char → List Char)
    (currentDate ts : String) (uid : Nat) (text : List Char)
    (hlong : 5000 < text.length) :
    ¬ sentDoc (handleTextMessage rl f nfc currentDate ts uid text) ∧
    (startsWithSlash text = false → ¬ (pyStrip text).length < 3 →
      f.replyLong = none →
      handleTextMessage rl f nfc currentDate ts uid text =
        ([Eff.replyText tooLongMsg], none)) := by
  constructor
  · rintro ⟨fn, c, cap, hmem⟩
    unfold handleTextMessage at hmem
    by_cases h0 : startsWithSlash text = true
    · rw [if_pos h0] at hmem
      simp at hmem
    · rw [if_neg h0] at hmem
      by_cases h1 : (pyStrip text).length < 3
      · rw [if_pos h1] at hmem
        cases hrs : f.replyShort <;> rw [hrs] at hmem <;> simp at hmem
      · rw [if_neg h1, if_pos hlong] at hmem
        cases hrl : f.replyLong <;> rw [hrl] at hmem <;> simp at hmem
  · intro h0 h1 h2
    unfold handleTextMessage
    rw [h0]
    simp [h1, hlong, h2]

lemma pyStrip_replicate_a (n : Nat) :
    pyStrip (List.replicate n 'a') = List.replicate n 'a' := by
  cases n with
  | zero => rfl
  | succ m =>
    have ha : pyIsSpace 'a' = false := by decide
    unfold pyStrip
    rw [List.replicate_succ, List.dropWhile_cons, ha]
    simp only [Bool.false_eq_true, if_false]
    rw [← List.replicate_succ, List.reverse_replicate]
    rw [List.replicate_succ, List.dropWhile_cons, ha]
    simp only [Bool.false_eq_true, if_false]
    rw [← List.replicate_succ, List.reverse_replicate]

/-- C8 witness: a 5001-character message in a fault-free environment. -/
theorem c8_witness :
    ¬ sentDoc (handleTextMessage false noFaults (fun l => l) "" "" 0
      (List.replicate 5001 'a')) ∧
    handleTextMessage false noFaults (fun l => l) "" "" 0
        (List.replicate 5001 'a') =
      ([Eff.replyText tooLongMsg], none) := by
  have hlong : 5000 < (List.replicate 5001 'a').length := by
    rw [List.length_replicate]
    omega
  have h := c8_too_long false noFaults (fun l => l) "" "" 0
    (List.replicate 5001 'a') hlong
  refine ⟨h.1, h.2 ?_ ?_ rfl⟩
  · have e : (5001 : Nat) = 5000 + 1 := rfl
    rw [e, List.replicate_succ]
    rfl
  · rw [pyStrip_replicate_a, List.length_replicate]
    omega

/-- C2 counterexample: with no session state, the two-character ordinary
message `"ab"` is not rendered or sent at all — the handler only replies
with the too-short warning — so an ordinary message is not unconditionally
treated as a complete document. -/
theorem c2_counterexample :
    handleTextMessage false noFaults (fun l => l) "" "" 0 "ab".data =
      ([Eff.replyText tooShortMsg], none) ∧
    ¬ sentDoc (handleTextMessage false noFaults (fun l => l) "" "" 0 "ab".data) := by
  have he : handleTextMessage false noFaults (fun l => l) "" "" 0 "ab".data =
      ([Eff.replyText tooShortMsg], none) := by decide
  refine ⟨he, ?_⟩
  rintro ⟨fn, c, cap, hmem⟩
  rw [he] at hmem
  simp at hmem

/-- C2 amended: a non-command ordinary message with trimmed length at least
3 and length at most 5000, arriving with no faults, is treated as a complete
one-message document: rendered from exactly that message and sent
immediately; the handler keeps no per-conversation state (it is a pure
function of the single message). -/
theorem c2_amended (rl : Bool) (f : Faults) (nfc : List Char → List Char)
    (currentDate ts : String) (uid : Nat) (text : List Char)
    (hcmd : startsWithSlash text = false)
    (hshort : ¬ (pyStrip text).length < 3)
    (hlong : ¬ 5000 < text.length)
    (hp : f.replyProcessing = none)
    (hs : f.sendDoc = none)
    (hd : f.deleteMsg = none) :
    ∃ buf ext mode,
      createDocument rl f.pdfRes nfc currentDate text = Except.ok (buf, ext, mode) ∧
      handleTextMessage rl f nfc currentDate ts uid text =
        ([Eff.replyText (processingMsg rl text.length),
          Eff.sendDocument ("SAMBATH_COMPLETE_" ++ ts ++ "." ++ ext) buf
            (captionMsg mode ext text.length currentDate),
          Eff.deleteProcessingMsg, Eff.logInfo (successLog mode uid)], none) := by
  obtain ⟨buf, ext, mode, hcd⟩ :=
    createDocument_isOk rl f.pdfRes nfc currentDate hshort
  refine ⟨buf, ext, mode, hcd, ?_⟩
  unfold handleTextMessage
  rw [hcmd]
  simp [hshort, hlong, hp, hs, hd, hcd]

/-- C2 amended witness: the spec's own example — plain `"Hello world"` with
no session produces one document from exactly that message. -/
theorem c2_witness :
    ∃ buf ext mode,
      createDocument false noFaults.pdfRes (fun l => l) "d" "Hello world".data =
        Except.ok (buf, ext, mode) ∧
      handleTextMessage false noFaults (fun l => l) "d" "ts" 7 "Hello world".data =
        ([Eff.replyText (processingMsg false "Hello world".data.length),
          Eff.sendDocument ("SAMBATH_COMPLETE_" ++ "ts" ++ "." ++ ext) buf
            (captionMsg mode ext "Hello world".data.length "d"),
          Eff.deleteProcessingMsg, Eff.logInfo (successLog mode 7)], none) :=
  c2_amended false noFaults (fun l => l) "d" "ts" 7 "Hello world".data
    (by decide) (by decide) (by decide) rfl rfl rfl

/-- C6 counterexample: a PDF rendering failure is not reported at all — the
handler silently falls back to the HTML document and sends it with a success
caption — and the error reply used for errors that do reach the `except`
block is not generic: it embeds the underlying error text, so it differs
from error to error. -/
theorem c6_counterexample :
    (handleTextMessage true
        ⟨none, none, none, Except.error "RenderBoom", none, none, none⟩
        (fun l => l) "d" "ts" 0 "Hello world".data).fst =
      [Eff.replyText (processingMsg true 11),
       Eff.sendDocument ("SAMBATH_COMPLETE_" ++ "ts" ++ "." ++ "html")
         (createHtmlDocument (fun l => l) "d" "Hello world".data)
         (captionMsg "HTML (Fallback)" "html" 11 "d"),
       Eff.deleteProcessingMsg, Eff.logInfo (successLog "HTML (Fallback)" 0)] ∧
    (∃ a b, errorReply "boom" = a ++ "boom" ++ b) ∧
    errorReply "boom" ≠ errorReply "crash" := by
  refine ⟨rfl, ⟨"❌ **មានបញ្ហាកើតឡើង:** ",
    "\n\n🔄 សូមព្យាយាមម្ដងទៀត\n💡 ឬផ្ញើអត្ថបទខ្លីជាមុន\n👨‍💻 Support: TENG SAMBATH",
    rfl⟩, by decide⟩

/-- C6 amended: an error that reaches the handler's `except` block (here: a
failing document delivery with message `e`) is reported to the user with a
reply that embeds the underlying error's message text `e` into a fixed
template; a failed PDF render alone is reported to nobody (silent HTML
fallback, see the counterexample). -/
theorem c6_amended (rl : Bool) (f : Faults) (nfc : List Char → List Char)
    (currentDate ts : String) (uid : Nat) (text : List Char) (e : String)
    (hcmd : startsWithSlash text = false)
    (hshort : ¬ (pyStrip text).length < 3)
    (hlong : ¬ 5000 < text.length)
    (hp : f.replyProcessing = none)
    (hs : f.sendDoc = some e)
    (hr : f.replyError = none) :
    Eff.replyText (errorReply e) ∈
      (handleTextMessage rl f nfc currentDate ts uid text).fst ∧
    ∃ a b, errorReply e = a ++ e ++ b := by
  obtain ⟨buf, ext, mode, hcd⟩ :=
    createDocument_isOk rl f.pdfRes nfc currentDate hshort
  refine ⟨?_, ⟨"❌ **មានបញ្ហាកើតឡើង:** ",
    "\n\n🔄 សូមព្យាយាមម្ដងទៀត\n💡 ឬផ្ញើអត្ថបទខ្លីជាមុន\n👨‍💻 Support: TENG SAMBATH",
    rfl⟩⟩
  unfold handleTextMessage
  rw [hcmd]
  simp [hshort, hlong, hp, hs, hr, hcd]

/-- C6 amended witness: a delivery failure with message `"boom"` is answered
with a reply embedding `"boom"`. -/
theorem c6_witness :
    Eff.replyText (errorReply "boom") ∈
      (handleTextMessage true ⟨none, none, none, Except.ok "%PDF-1.4", some "boom",
        none, none⟩ (fun l => l) "d" "ts" 0 "Hello world".data).fst ∧
    ∃ a b, errorReply "boom" = a ++ "boom" ++ b :=
  c6_amended true ⟨none, none, none, Except.ok "%PDF-1.4", some "boom", none, none⟩
    (fun l => l) "d" "ts" 0 "Hello world".data "boom"
    (by decide) (by decide) (by decide) rfl rfl rfl

/-- C7 counterexample: an exception raised by the too-short warning reply —
which is awaited outside the handler's `try` block — propagates out of the
handler with no user-visible reply and no log entry. -/
theorem c7_counterexample :
    handleTextMessage true
        ⟨some "NetworkError", none, none, Except.ok "%PDF-1.4", none, none, none⟩
        (fun l => l) "" "" 0 "ab".data =
      ([], some "NetworkError") := by decide

/-- C7 amended: only the document-creation/sending path is guarded: for a
message that reaches the `try` block, if the processing reply and the error
reply themselves do not raise, no exception escapes the handler, and a
failure inside the block (e.g. of document delivery) is both logged and
answered with an error reply.  The webhook endpoint catches its own
exceptions and answers HTTP 500 with a log entry but sends no reply to the
user.  Exceptions of the validation replies (outside the `try`) escape the
handler, as the counterexample shows. -/
theorem c7_amended (rl : Bool) (f : Faults) (nfc : List Char → List Char)
    (currentDate ts : String) (uid : Nat) (text : List Char)
    (hcmd : startsWithSlash text = false)
    (hshort : ¬ (pyStrip text).length < 3)
    (hlong : ¬ 5000 < text.length)
    (hp : f.replyProcessing = none)
    (hr : f.replyError = none) :
    (handleTextMessage rl f nfc currentDate ts uid text).snd = none ∧
    (∀ e, f.sendDoc = some e →
      Eff.logError (handlerErrorLog e) ∈
        (handleTextMessage rl f nfc currentDate ts uid text).fst ∧
      Eff.replyText (errorReply e) ∈
        (handleTextMessage rl f nfc currentDate ts uid text).fst) ∧
    (∀ e, processUpdate (Except.error e) =
      ([Eff.logError ("Webhook error: " ++ e)], 500)) := by
  obtain ⟨buf, ext, mode, hcd⟩ :=
    createDocument_isOk rl f.pdfRes nfc currentDate hshort
  refine ⟨?_, ?_, fun e => rfl⟩
  · unfold handleTextMessage
    rw [hcmd]
    cases hs : f.sendDoc <;> cases hd : f.deleteMsg <;>
      simp [hshort, hlong, hp, hr, hcd, hs, hd]
  · intro e hs
    unfold handleTextMessage
    rw [hcmd]
    simp [hshort, hlong, hp, hr, hcd, hs]

/-- C7 amended witness: with a failing delivery (`"boom"`) and nothing else
failing, the handler returns normally, logs the failure, and replies. -/
theorem c7_witness :
    ((handleTextMessage true ⟨none, none, none, Except.ok "%PDF-1.4", some "boom",
        none, none⟩ (fun l => l) "d" "ts" 0 "Hello world".data).snd = none ∧
      (∀ e, (⟨none, none, none, Except.ok "%PDF-1.4", some "boom", none, none⟩ :
          Faults).sendDoc = some e →
        Eff.logError (handlerErrorLog e) ∈
          (handleTextMessage true ⟨none, none, none, Except.ok "%PDF-1.4",
            some "boom", none, none⟩ (fun l => l) "d" "ts" 0 "Hello world".data).fst ∧
        Eff.replyText (errorReply e) ∈
          (handleTextMessage true ⟨none, none, none, Except.ok "%PDF-1.4",
            some "boom", none, none⟩ (fun l => l) "d" "ts" 0 "Hello world".data).fst) ∧
      (∀ e, processUpdate (Except.error e) =
        ([Eff.logError ("Webhook error: " ++ e)], 500))) :=
  c7_amended true ⟨none, none, none, Except.ok "%PDF-1.4", some "boom", none, none⟩
    (fun l => l) "d" "ts" 0 "Hello world".data
    (by decide) (by decide) (by decide) rfl rfl

lemma runEvents_cons (st : Session) (ev : SEvent) (evs : List SEvent) :
    runEvents st (ev :: evs) = runEvents (step st ev).fst evs := rfl

lemma runEvents_collect :
    ∀ (msgs : List (List Char)) (t : Option (List Char))
      (cs : List (Nat × List Char)) (n : Nat),
      (∀ m ∈ msgs, isEndKeyword m = false) →
      runEvents ⟨true, t, cs, n⟩ (msgs.map SEvent.plainText) =
        ⟨true, t, cs ++ numberFrom n msgs, n + msgs.length⟩ := by
  intro msgs
  induction msgs with
  | nil => intro t cs n _; simp [runEvents, numberFrom]
  | cons m ms ih =>
    intro t cs n h
    have hm : isEndKeyword m = false := h m (by simp)
    rw [List.map_cons, runEvents_cons]
    have hstep : (step ⟨true, t, cs, n⟩ (SEvent.plainText m)).fst =
        ⟨true, t, cs ++ [(n, normalizeNewlines m)], n + 1⟩ := by
      simp [step, hm]
    rw [hstep, ih t _ (n + 1) (fun x hx => h x (by simp [hx]))]
    simp [numberFrom, List.append_assoc, Nat.add_assoc, Nat.add_comm,
      Nat.add_left_comm]

lemma numberFrom_map_snd :
    ∀ (msgs : List (List Char)) (n : Nat),
      (numberFrom n msgs).map Prod.snd = msgs.map normalizeNewlines := by
  intro msgs
  induction msgs with
  | nil => intro n; rfl
  | cons m ms ih => intro n; simp [numberFrom, ih]

lemma numberFrom_ne_nil {msgs : List (List Char)} (h : msgs ≠ []) (n : Nat) :
    numberFrom n msgs ≠ [] := by
  cases msgs with
  | nil => exact absurd rfl h
  | cons m ms => simp [numberFrom]

lemma map_norm_eq_self {msgs : List (List Char)}
    (h : ∀ m ∈ msgs, normalizeNewlines m = m) :
    msgs.map normalizeNewlines = msgs := by
  induction msgs with
  | nil => rfl
  | cons m ms ih => simp [h m (by simp), ih (fun x hx => h x (by simp [hx]))]

/-- C1: order preservation of the Session Buffer (modelled from the spec —
`src/main.py` holds only the one-shot variant).  Starting a session, sending
any non-empty sequence of ordinary messages (none a command or an end
keyword, all already newline-normal) and ending it emits a merged document
whose body is exactly the messages joined by newline in arrival order, with
the session title carried over. -/
theorem c1_order_preservation (title : Option (List Char))
    (msgs : List (List Char))
    (hne : msgs ≠ [])
    (hkw : ∀ m ∈ msgs, isEndKeyword m = false)
    (hnorm : ∀ m ∈ msgs, normalizeNewlines m = m) :
    (step (runEvents (step emptySession (SEvent.startCmd title)).fst
        (msgs.map SEvent.plainText)) SEvent.endCmd).snd =
      SOut.doc ⟨title, joinWithNl msgs⟩ := by
  have h0 : (step emptySession (SEvent.startCmd title)).fst =
      ⟨true, title, [], 1⟩ := rfl
  rw [h0, runEvents_collect msgs title [] 1 hkw]
  have hch : numberFrom 1 msgs ≠ [] := numberFrom_ne_nil hne 1
  have hie : (numberFrom 1 msgs).isEmpty = false := by
    obtain ⟨c0, cs0, hcs⟩ := List.exists_cons_of_ne_nil hch
    rw [hcs]
    rfl
  have hact : step ⟨true, title, [] ++ numberFrom 1 msgs, 1 + msgs.length⟩
      SEvent.endCmd =
      finalizeSession ⟨true, title, [] ++ numberFrom 1 msgs, 1 + msgs.length⟩ := by
    simp [step]
  rw [hact]
  unfold finalizeSession
  rw [if_neg (by simp [hie])]
  simp [mergeSession, numberFrom_map_snd, map_norm_eq_self hnorm]

/-- C1 witness: the spec's example — `start "Report"`, `"Line one"`,
`"Line two"`, end — merges to body `"Line one\nLine two"` with title
`"Report"`. -/
theorem c1_witness :
    (step (runEvents (step emptySession (SEvent.startCmd (some "Report".data))).fst
        (["Line one".data, "Line two".data].map SEvent.plainText)) SEvent.endCmd).snd =
      SOut.doc ⟨some "Report".data, joinWithNl ["Line one".data, "Line two".data]⟩ :=
  c1_order_preservation (some "Report".data) ["Line one".data, "Line two".data]
    (by decide) (by decide) (by decide)

end Text2PDF
